import Mathlib

/-!
Verification of the FreeWebSearchBot message-handling logic (src/app.js).

The JavaScript source is shallowly embedded: each handler is modelled as a
pure function from the inbound event and the outcomes of its external calls
(search GET, page-fetch GET, JSON parsing) to the ordered list of observable
actions it performs (log lines, typing indicators, outbound messages, and
outbound HTTP requests).  Node's asynchronous callbacks are sequentialised:
within one event's handling the callbacks run in the order the source
attaches them, so the action trace is the happens-before order of effects.

JavaScript strings are modelled as Lean `String`s; `s.substring(0, 2000)`
becomes `String.take s 2000` and `s.length` becomes `String.length` (both
sides count "characters" in the sense of the spec).  `JSON.parse` is
abstracted to its result: either a parse exception or a parsed object whose
`items` field is `none` (the JS value `null` or `undefined`, both of which
fail the source's loose test `obj.items != null`) or `some` list of items.
-/

namespace App

/-- A search result item as parsed from the search API's JSON
(`obj.items[i]` in app.js): title, snippet and link fields. -/
structure Item where
  title : String
  snippet : String
  link : String
  deriving DecidableEq

/-- One observable effect of the handler, in program order:
`logged` is a successful console call; `crashed` is an attempted call to
`console.err` — `console.err` is not a function on Node's `console` object,
so at runtime the call raises `TypeError: console.err is not a function`,
aborting the enclosing callback: nothing after a `crashed` action executes,
so it is always the last action of a trace.  `typingOn`/`typingOff` are the
`sender_action` payloads posted by `sendTypingOn`/`sendTypingOff`;
`textMessage` is the plain-text payload posted by `sendTextMessage`;
`quickReply` is the quick-replies payload posted by `sendQuickReply`
(recipient, text, and the ten (title, payload) buttons, a payload being
`none` when the JS value is `undefined`); `searchGet` is the dispatch of
`https.get` to the search endpoint; `fetchGet` is the dispatch of the
page-fetch GET `request` inside `httpGet`. -/
inductive Action where
  | logged : String → Action
  | crashed : String → Action
  | typingOn : String → Action
  | typingOff : String → Action
  | textMessage : String → String → Action
  | quickReply : String → String → List (String × Option String) → Action
  | searchGet : String → Action
  | fetchGet : String → Action
  deriving DecidableEq

/-- sendTextMessage (app.js line 325): posts a plain-text message payload
to the Send API for the given recipient. -/
def sendTextMessage (recipientId messageText : String) : Action :=
  Action.textMessage recipientId messageText

/-- The ten quick-reply buttons built literally in sendQuickReply
(app.js lines 350-400): titles "1".."10", payload i reading `urlArray[i-1]`
(`none` models the JS `undefined` produced by an out-of-range index). -/
def quickReplyButtons (urlArray : List String) : List (String × Option String) :=
  [("1", urlArray.get? 0),
   ("2", urlArray.get? 1),
   ("3", urlArray.get? 2),
   ("4", urlArray.get? 3),
   ("5", urlArray.get? 4),
   ("6", urlArray.get? 5),
   ("7", urlArray.get? 6),
   ("8", urlArray.get? 7),
   ("9", urlArray.get? 8),
   ("10", urlArray.get? 9)]

/-- sendQuickReply (app.js line 343): posts a quick-replies payload whose
text is `message` and whose ten buttons index into `urlArray`. -/
def sendQuickReply (recipientId message : String) (urlArray : List String) : Action :=
  Action.quickReply recipientId message (quickReplyButtons urlArray)

/-- The fixed zero-results reply text (app.js line 300), sent when
`obj.items` is `null`/`undefined`. -/
def zeroResultsMessage : String :=
  "Thanks for trying out this bot. Please bear with us as we already exceeded the total daily number of searches allowable by Google (by a single app). The bot will work again at 4 p.m. Philippine time when Google resets the daily limit.\n\nIn the meantime, you may also use this as a primitive web browser. Just send a link (e.g. \"http://phmountains.com\") and the bot will respond with the text-only version of the website."

/-- The fixed help reply sent for attachment messages (app.js line 317). -/
def attachmentsHelpText : String :=
  "Search the Internet for free! You may also get the text contents of a website by sending us the complete http link (e.g. \"https://phmountains.com\")."

/-- The fixed generic error reply of the JSON-parse catch block
(app.js line 305). -/
def oopsMessage : String :=
  "Oops! An error was encountered. Please try again."

/-- The result-formatting loop of the search 'end' callback (app.js lines
268-280): `idx` is the mutable `index` (starting at 1), `total` the reply
string accumulated so far, `links` the collected link list.  For each item:
if `index != 1` first append a blank-line separator, then append
`index + ". " + item.title + "\n\n" + item.snippet` (JS number-to-string on
`index`), push `item.link`, and increment `index`. -/
def formatLoop : Nat → String → List String → List Item → String × List String
  | _, total, links, [] => (total, links)
  | idx, total, links, item :: rest =>
    formatLoop (idx + 1)
      ((if idx != 1 then total ++ "\n\n" else total)
        ++ toString idx ++ ". " ++ item.title ++ "\n\n" ++ item.snippet)
      (links ++ [item.link]) rest

/-- The reply text and link list produced from `obj.items` (the loop runs
with `index = 1`, `total = ""`, `links = []`). -/
def formatItems (items : List Item) : String × List String :=
  formatLoop 1 "" [] items

/-- The outcome of `JSON.parse(data)` in the search 'end' callback:
either a parse exception (with its message), or a parsed object whose
`items` field is `none` (JS `null` or absent — both fail the source's
loose test `obj.items != null`) or `some` list of items. -/
inductive ParseResult where
  | parseError : String → ParseResult
  | ok : Option (List Item) → ParseResult
  deriving DecidableEq

/-- The outcome of the search HTTPS GET: either the full response body was
received (the 'end' event fired, and `JSON.parse` of the accumulated data
gave the given result), or the request emitted 'error' with a message. -/
inductive SearchOutcome where
  | response : ParseResult → SearchOutcome
  | networkError : String → SearchOutcome
  deriving DecidableEq

/-- The outcome of the page-fetch GET issued by httpGet: either a transport
error (the callback's `error` argument is truthy), or a response with a
status code and body. -/
inductive FetchOutcome where
  | transportError : String → FetchOutcome
  | response : Nat → String → FetchOutcome
  deriving DecidableEq

/-- httpGet (app.js lines 474-513): log the fetch, dispatch the GET, and in
the callback: on success (`!error && response.statusCode == 200`) sanitize
the body to plain text and send it via sendTextMessage, truncated to its
first 2000 characters when its length is not below 2000 (`substring(0,
2000)`); otherwise (transport error or non-200 status) only log the
failure via `console.error` (a real function, unlike `console.err`).
`sanitize` abstracts the `sanitize-html` library call with all tags,
attributes and iframe hostnames disallowed. -/
def httpGet (sanitize : String → String) (senderID url : String)
    (outcome : FetchOutcome) : List Action :=
  Action.logged ("httpGet: Fetching: " ++ url) ::
  Action.fetchGet url ::
  match outcome with
  | FetchOutcome.transportError _ =>
    [Action.logged ("Failed calling httpGet from: " ++ url)]
  | FetchOutcome.response statusCode body =>
    if statusCode == 200 then
      let text := sanitize body
      Action.logged ("httpGet: Successfully received response from: " ++ url) ::
      (if text.length < 2000 then
        [sendTextMessage senderID text]
      else
        [sendTextMessage senderID (text.take 2000)])
    else
      [Action.logged ("Failed calling httpGet from: " ++ url)]

/-- The body of the `try`/`catch` in the search 'end' callback (app.js
lines 265-306), after `JSON.parse` has produced `pr`:
if `obj.items != null` (a loose test: `null` and `undefined` both fail
it, an empty array passes it) run the formatting loop, log the result
count, and send the (possibly truncated) reply via sendQuickReply; if the
test fails, log and send the fixed zero-results text via sendTextMessage;
if `JSON.parse` threw, the catch block first calls
`console.err("Error: " + e.message)` — `console.err` is `undefined` in
Node, so this raises a TypeError inside the catch block; the exception
propagates and `sendTextMessage(senderID, oopsMessage)` on the next line
never executes (modelled by the terminal `crashed` action). -/
def parseBranch (senderID : String) : ParseResult → List Action
  | ParseResult.parseError errMessage =>
    [Action.crashed ("Error: " ++ errMessage)]
  | ParseResult.ok none =>
    [Action.logged "Googled: ZERO results",
     sendTextMessage senderID zeroResultsMessage]
  | ParseResult.ok (some items) =>
    let fmt := formatItems items
    Action.logged "Googled: results" ::
    (if fmt.1.length < 2000 then
      [sendQuickReply senderID fmt.1 fmt.2]
    else
      [sendQuickReply senderID (fmt.1.take 2000) fmt.2])

/-- The callbacks attached to the search `https.get` (app.js lines
251-313).  When the whole response is received, the 'end' handler logs
the data, calls sendTypingOff, then parses and branches (`parseBranch`).
When the request emits 'error', the handler first calls
`console.err("Error: " + err.message)` — `console.err` is `undefined` in
Node, so the call raises a TypeError and the callback aborts: the
`sendTypingOff(senderID)` and `sendTextMessage(senderID, "Error: " +
err.message)` on the following lines never execute (modelled by the
terminal `crashed` action). -/
def searchCallback (senderID : String) : SearchOutcome → List Action
  | SearchOutcome.response pr =>
    Action.logged "response data" ::
    Action.typingOff senderID ::
    parseBranch senderID pr
  | SearchOutcome.networkError errMessage =>
    [Action.crashed ("Error: " ++ errMessage)]

/-- JS `String.prototype.startsWith(pre)` (app.js line 245): true when the
characters of `pre` are an initial segment of the characters of `s`
(embedded directly over the character lists so that it is computable by
the kernel; it agrees with the abstraction of JS strings as Lean
strings stated in the header). -/
def jsStartsWith (s pre : String) : Bool :=
  pre.data.isPrefixOf s.data

/-- The `message` object of an inbound messaging event (app.js lines
216-224): the echo flag, the optional text, whether the attachments field
is present (in JS even an empty array is truthy), and the optional
quick-reply payload. -/
structure Message where
  is_echo : Bool
  text : Option String
  attachments : Bool
  quick_reply : Option String
  deriving DecidableEq

/-- An inbound messaging event as consumed by receivedMessage: the
sender id and the message payload. -/
structure MessagingEvent where
  senderID : String
  message : Message
  deriving DecidableEq

/-- receivedMessage (app.js lines 206-319) as a trace of actions.
`searchUrl` is the configured SEARCH_URL; `sanitize` abstracts the
sanitize-html call; `search` and `fetch` are the outcomes of the external
calls the event may trigger.  Branch order as in the source: log the
inbound message; if the echo flag is set, only log; else if a quick-reply
payload is present, log and delegate it to httpGet as the URL; else if
text is present, send typing-on, then delegate to httpGet when the text
starts with "http://" or "https://", otherwise dispatch the search GET to
`searchUrl + text` and run the search callbacks; else if attachments are
present, send the fixed help text; else do nothing further. -/
def receivedMessage (searchUrl : String) (sanitize : String → String)
    (event : MessagingEvent) (search : SearchOutcome) (fetch : FetchOutcome) :
    List Action :=
  Action.logged "Received message" ::
  (if event.message.is_echo then
    [Action.logged "Received echo"]
  else
    match event.message.quick_reply with
    | some quickReplyPayload =>
      Action.logged "Quick reply" ::
      httpGet sanitize event.senderID quickReplyPayload fetch
    | none =>
      match event.message.text with
      | some messageText =>
        Action.typingOn event.senderID ::
        (if jsStartsWith messageText "http://" || jsStartsWith messageText "https://" then
          httpGet sanitize event.senderID messageText fetch
        else
          Action.searchGet (searchUrl ++ messageText) ::
          searchCallback event.senderID search)
      | none =>
        if event.message.attachments then
          [sendTextMessage event.senderID attachmentsHelpText]
        else
          [])

/-- The process environment variables read at startup (app.js lines
41-63); `none` models an unset variable. -/
structure Env where
  MESSENGER_APP_SECRET : Option String
  MESSENGER_VALIDATION_TOKEN : Option String
  MESSENGER_PAGE_ACCESS_TOKEN : Option String
  SERVER_URL : Option String
  SEARCH_URL : Option String
  deriving DecidableEq

/-- The keys of the config file consulted as fallback (app.js lines
41-63); `none` models a key absent from the file. -/
structure ConfigFile where
  appSecret : Option String
  validationToken : Option String
  pageAccessToken : Option String
  serverURL : Option String
  searchURL : Option String
  deriving DecidableEq

/-- `config.get(key)` of the node-config library: returns the configured
value, and throws `Error: Configuration property "key" is not defined`
when the key is absent (documented node-config behaviour). -/
def configGet : Option String → Except String String
  | some v => Except.ok v
  | none => Except.error "Configuration property is not defined"

/-- The resolution pattern `process.env.X ? process.env.X : config.get(k)`
(app.js lines 41-63): an env var that is set and truthy (non-empty string)
wins; an unset or empty env var falls back to `config.get`, which throws
when the key is also absent from the config file. -/
def envOrConfig (envVal cfgVal : Option String) : Except String String :=
  match envVal with
  | some v => if v = "" then configGet cfgVal else Except.ok v
  | none => configGet cfgVal

/-- The startup sequence of app.js: resolve the five configuration values
in source order (lines 41-63), each via `envOrConfig` (an uncaught throw
from `config.get` aborts startup), then the explicit guard of line 65:
`if (!(APP_SECRET && VALIDATION_TOKEN && PAGE_ACCESS_TOKEN && SERVER_URL))
process.exit(1)` — note the guard does not test SEARCH_URL.  `Except.error`
models a refused start (either an uncaught exception or `process.exit(1)`);
`Except.ok` carries the five resolved values. -/
def startup (env : Env) (cfg : ConfigFile) :
    Except String (String × String × String × String × String) :=
  match envOrConfig env.MESSENGER_APP_SECRET cfg.appSecret with
  | Except.error e => Except.error e
  | Except.ok APP_SECRET =>
    match envOrConfig env.MESSENGER_VALIDATION_TOKEN cfg.validationToken with
    | Except.error e => Except.error e
    | Except.ok VALIDATION_TOKEN =>
      match envOrConfig env.MESSENGER_PAGE_ACCESS_TOKEN cfg.pageAccessToken with
      | Except.error e => Except.error e
      | Except.ok PAGE_ACCESS_TOKEN =>
        match envOrConfig env.SERVER_URL cfg.serverURL with
        | Except.error e => Except.error e
        | Except.ok SERVER_URL =>
          match envOrConfig env.SEARCH_URL cfg.searchURL with
          | Except.error e => Except.error e
          | Except.ok SEARCH_URL =>
            if APP_SECRET = "" ∨ VALIDATION_TOKEN = "" ∨
                PAGE_ACCESS_TOKEN = "" ∨ SERVER_URL = "" then
              Except.error "Missing config values"
            else
              Except.ok (APP_SECRET, VALIDATION_TOKEN, PAGE_ACCESS_TOKEN,
                SERVER_URL, SEARCH_URL)

/-- Some configuration value is missing from both the environment and the
config file. -/
def someValueMissing (env : Env) (cfg : ConfigFile) : Prop :=
  (env.MESSENGER_APP_SECRET = none ∧ cfg.appSecret = none) ∨
  (env.MESSENGER_VALIDATION_TOKEN = none ∧ cfg.validationToken = none) ∨
  (env.MESSENGER_PAGE_ACCESS_TOKEN = none ∧ cfg.pageAccessToken = none) ∨
  (env.SERVER_URL = none ∧ cfg.serverURL = none) ∨
  (env.SEARCH_URL = none ∧ cfg.searchURL = none)

instance (env : Env) (cfg : ConfigFile) : Decidable (someValueMissing env cfg) := by
  unfold someValueMissing; infer_instance

/-- An action is a typing-on signal. -/
def isTypingOn : Action → Bool
  | Action.typingOn _ => true
  | _ => false

/-- An action is a typing-off signal. -/
def isTypingOff : Action → Bool
  | Action.typingOff _ => true
  | _ => false

/-- An action is a search-endpoint GET dispatch. -/
def isSearchGet : Action → Bool
  | Action.searchGet _ => true
  | _ => false

/-- An action is a page-fetch GET dispatch. -/
def isFetchGet : Action → Bool
  | Action.fetchGet _ => true
  | _ => false

/-- An action delivers a message to the user (plain text or quick-reply
payload posted to the Send API). -/
def isSendToUser : Action → Bool
  | Action.textMessage _ _ => true
  | Action.quickReply _ _ _ => true
  | _ => false

/-- An action is a plain-text message send. -/
def isTextMessage : Action → Bool
  | Action.textMessage _ _ => true
  | _ => false

/-- An action is a quick-reply message send. -/
def isQuickReply : Action → Bool
  | Action.quickReply _ _ _ => true
  | _ => false

/-- Modelled from the spec: the per-item pieces of the reply, "a 1-based
index, the title, and the snippet", indices counting up from `n`. -/
def specReplyPieces : Nat → List Item → List String
  | _, [] => []
  | n, item :: rest =>
    (toString n ++ ". " ++ item.title ++ "\n\n" ++ item.snippet) ::
    specReplyPieces (n + 1) rest

/-- Modelled from the spec: concatenation of the pieces "separated by blank
lines between items". -/
def specBlankLineJoin : List String → String
  | [] => ""
  | [p] => p
  | p :: q :: ps => p ++ "\n\n" ++ specBlankLineJoin (q :: ps)

/-- Helper: a blank-line join in which every piece, including the first,
is preceded by a blank-line separator (the tail of `specBlankLineJoin`). -/
def blankLineTail : List String → String
  | [] => ""
  | p :: ps => "\n\n" ++ p ++ blankLineTail ps

/-! Helper lemmas about the embedded definitions. -/

/-- The formatting loop appends the items' links, in order, to the
accumulated link list. -/
theorem formatLoop_links (items : List Item) :
    ∀ (idx : Nat) (total : String) (links : List String),
      (formatLoop idx total links items).2 = links ++ items.map Item.link := by
  induction items with
  | nil => intro idx total links; simp [formatLoop]
  | cons item rest ih =>
    intro idx total links
    simp [formatLoop, ih]

/-- From index 2 on, the separator branch is always taken: the loop text is
the accumulator followed by a separator-prefixed piece per item. -/
theorem formatLoop_text (items : List Item) :
    ∀ (n : Nat) (total : String) (links : List String),
      (formatLoop (n + 2) total links items).1
        = total ++ blankLineTail (specReplyPieces (n + 2) items) := by
  induction items with
  | nil =>
    intro n total links
    simp [formatLoop, specReplyPieces, blankLineTail]
  | cons item rest ih =>
    intro n total links
    have hne : (n + 2 != 1) = true := by simp
    have h3 : n + 2 + 1 = n + 1 + 2 := by omega
    simp only [formatLoop, hne, if_true, h3, ih, specReplyPieces, blankLineTail]
    simp [String.append_assoc]

/-- A blank-line join of a nonempty piece list is its head followed by the
separator-prefixed tail. -/
theorem specBlankLineJoin_cons (p : String) (ps : List String) :
    specBlankLineJoin (p :: ps) = p ++ blankLineTail ps := by
  induction ps generalizing p with
  | nil => simp [specBlankLineJoin, blankLineTail]
  | cons q ps ih =>
    simp only [specBlankLineJoin, blankLineTail, ih, String.append_assoc]

/-- The reply text built by the source loop equals the spec's description:
the blank-line join of the 1-based indexed pieces. -/
theorem formatItems_text (items : List Item) :
    (formatItems items).1 = specBlankLineJoin (specReplyPieces 1 items) := by
  cases items with
  | nil => rfl
  | cons item rest =>
    show (formatLoop 1 "" [] (item :: rest)).1 = _
    simp only [formatLoop]
    have h2 : (1 : Nat) + 1 = 0 + 2 := by omega
    rw [h2, formatLoop_text]
    simp only [specReplyPieces, specBlankLineJoin_cons]
    simp [String.append_assoc]

/-- The httpGet trace dispatches exactly one page-fetch GET, with the given
URL, whatever the outcome. -/
theorem httpGet_filter_fetchGet (sanitize : String → String) (senderID url : String)
    (outcome : FetchOutcome) :
    (httpGet sanitize senderID url outcome).filter isFetchGet = [Action.fetchGet url] := by
  cases outcome with
  | transportError msg => rfl
  | response status body =>
    simp only [httpGet]
    split
    · split <;> rfl
    · rfl

/-- The httpGet trace never dispatches a search GET. -/
theorem httpGet_filter_searchGet (sanitize : String → String) (senderID url : String)
    (outcome : FetchOutcome) :
    (httpGet sanitize senderID url outcome).filter isSearchGet = [] := by
  cases outcome with
  | transportError msg => rfl
  | response status body =>
    simp only [httpGet]
    split
    · split <;> rfl
    · rfl

/-- The httpGet trace never emits a typing-off signal. -/
theorem httpGet_filter_typingOff (sanitize : String → String) (senderID url : String)
    (outcome : FetchOutcome) :
    (httpGet sanitize senderID url outcome).filter isTypingOff = [] := by
  cases outcome with
  | transportError msg => rfl
  | response status body =>
    simp only [httpGet]
    split
    · split <;> rfl
    · rfl

/-- The httpGet trace never emits a typing-on signal. -/
theorem httpGet_filter_typingOn (sanitize : String → String) (senderID url : String)
    (outcome : FetchOutcome) :
    (httpGet sanitize senderID url outcome).filter isTypingOn = [] := by
  cases outcome with
  | transportError msg => rfl
  | response status body =>
    simp only [httpGet]
    split
    · split <;> rfl
    · rfl

/-! Claim theorems. -/

/-- C1 counterexample: for the concrete empty items list the handler does
not send the zero-results plain-text message — the loose test
`obj.items != null` passes for an empty array, so it sends a quick-reply
payload with empty text and no plain-text message at all. -/
theorem claim_C1_counterexample :
    (parseBranch "USER" (ParseResult.ok (some []))).filter isTextMessage = []
    ∧ parseBranch "USER" (ParseResult.ok (some []))
      = [Action.logged "Googled: results", sendQuickReply "USER" "" []] :=
  ⟨rfl, rfl⟩

/-- C1 (amended): for every search response whose items list is absent or
null, the delivered reply equals the fixed zero-results message and is sent
as a plain-text payload, with no quick-reply payload; for an empty items
list the handler instead sends a quick-reply payload whose text is empty
and sends no plain-text message. -/
theorem claim_C1 (senderID : String) :
    parseBranch senderID (ParseResult.ok none)
      = [Action.logged "Googled: ZERO results",
         sendTextMessage senderID zeroResultsMessage]
    ∧ (parseBranch senderID (ParseResult.ok none)).filter isQuickReply = []
    ∧ parseBranch senderID (ParseResult.ok (some []))
      = [Action.logged "Googled: results", sendQuickReply senderID "" []]
    ∧ (parseBranch senderID (ParseResult.ok (some []))).filter isTextMessage = [] :=
  ⟨rfl, rfl, rfl, rfl⟩

/-- C2 counterexample: at a concrete network error and at a concrete JSON
parse error, no reply of any kind is delivered to the sender — in
particular not the fixed generic error reply the claim requires. -/
theorem claim_C2_counterexample :
    (searchCallback "USER" (SearchOutcome.networkError "socket hang up")).filter
        isSendToUser = []
    ∧ (parseBranch "USER" (ParseResult.parseError
        "Unexpected token u in JSON at position 0")).filter isSendToUser = [] :=
  ⟨rfl, rfl⟩

/-- C2 (amended): for every search attempt in which the response body is
not valid JSON or the network call errors, the handler's callback aborts
with a TypeError when it calls `console.err` (which is not a function), so
neither failure case logs or delivers any reply to the sender; the traces
end in the crashed action. -/
theorem claim_C2 (senderID errMessage : String) :
    searchCallback senderID (SearchOutcome.networkError errMessage)
      = [Action.crashed ("Error: " ++ errMessage)]
    ∧ parseBranch senderID (ParseResult.parseError errMessage)
      = [Action.crashed ("Error: " ++ errMessage)] :=
  ⟨rfl, rfl⟩

/-- C3: if any one of the five configuration values is missing from both
the environment and the config file, startup fails: either `config.get`
throws for the missing key (this covers SEARCH_URL, which the explicit
guard of line 65 does not test), or the guard calls `process.exit(1)`. -/
theorem claim_C3 (env : Env) (cfg : ConfigFile) (h : someValueMissing env cfg) :
    ∃ e, startup env cfg = Except.error e := by
  rcases h with ⟨he, hc⟩ | ⟨he, hc⟩ | ⟨he, hc⟩ | ⟨he, hc⟩ | ⟨he, hc⟩ <;>
    simp only [startup, he, hc, envOrConfig, configGet] <;>
    (repeat' split) <;> exact ⟨_, rfl⟩

/-- C3 witness: with only SEARCH_URL missing from both the environment and
the config file (all other values supplied by the environment), startup
still fails. -/
theorem claim_C3_witness :
    someValueMissing ⟨some "s", some "v", some "p", some "u", none⟩
        ⟨none, none, none, none, none⟩
    ∧ ∃ e, startup ⟨some "s", some "v", some "p", some "u", none⟩
        ⟨none, none, none, none, none⟩ = Except.error e := by
  have hm : someValueMissing ⟨some "s", some "v", some "p", some "u", none⟩
      ⟨none, none, none, none, none⟩ :=
    Or.inr (Or.inr (Or.inr (Or.inr ⟨rfl, rfl⟩)))
  exact ⟨hm, claim_C3 _ _ hm⟩

/-- C4 (code-bug evidence): for the non-echo text message "hello" (not a
URL) whose search GET fails with a network error, the handler emits exactly
one typing-on and dispatches the search exactly once with the text as the
query, but emits NO typing-off: the 'error' callback raises a TypeError at
`console.err` before reaching `sendTypingOff`.  By contrast, on the 'end'
path (last conjunct, with the same event) exactly one typing-off is
emitted after the response is received. -/
theorem claim_C4_bug :
    receivedMessage "SEARCH/" id ⟨"USER", ⟨false, some "hello", false, none⟩⟩
        (SearchOutcome.networkError "socket hang up") (FetchOutcome.response 200 "")
      = [Action.logged "Received message", Action.typingOn "USER",
         Action.searchGet "SEARCH/hello", Action.crashed "Error: socket hang up"]
    ∧ (receivedMessage "SEARCH/" id ⟨"USER", ⟨false, some "hello", false, none⟩⟩
        (SearchOutcome.networkError "socket hang up")
        (FetchOutcome.response 200 "")).filter isTypingOff = []
    ∧ (receivedMessage "SEARCH/" id ⟨"USER", ⟨false, some "hello", false, none⟩⟩
        (SearchOutcome.networkError "socket hang up")
        (FetchOutcome.response 200 "")).filter isTypingOn = [Action.typingOn "USER"]
    ∧ (receivedMessage "SEARCH/" id ⟨"USER", ⟨false, some "hello", false, none⟩⟩
        (SearchOutcome.networkError "socket hang up")
        (FetchOutcome.response 200 "")).filter isSearchGet
      = [Action.searchGet "SEARCH/hello"]
    ∧ (receivedMessage "SEARCH/" id ⟨"USER", ⟨false, some "hello", false, none⟩⟩
        (SearchOutcome.response (ParseResult.ok none))
        (FetchOutcome.response 200 "")).filter isTypingOff
      = [Action.typingOff "USER"] :=
  ⟨rfl, rfl, rfl, rfl, rfl⟩

/-- C5: for the two-item example response the formatted reply text equals
"1. A\n\nB\n\n2. C\n\nD" and the link list equals ["L1", "L2"]; in
general the collected link list is the items' links in the same order, and
the reply text is the blank-line join of the 1-based indexed
title-and-snippet pieces. -/
theorem claim_C5 :
    formatItems [⟨"A", "B", "L1"⟩, ⟨"C", "D", "L2"⟩]
      = ("1. A\n\nB\n\n2. C\n\nD", ["L1", "L2"])
    ∧ (∀ items : List Item, (formatItems items).2 = items.map Item.link)
    ∧ ∀ items : List Item,
        (formatItems items).1 = specBlankLineJoin (specReplyPieces 1 items) := by
  refine ⟨rfl, ?_, formatItems_text⟩
  intro items
  simpa using formatLoop_links items 1 "" []

/-- C6: the delivered search reply text is exactly the first 2000
characters of the formatted text when that text's length is at or above
2000, and the full untruncated text when it is below 2000. -/
theorem claim_C6 (senderID : String) (items : List Item) :
    (2000 ≤ (formatItems items).1.length →
      parseBranch senderID (ParseResult.ok (some items))
        = [Action.logged "Googled: results",
           sendQuickReply senderID ((formatItems items).1.take 2000)
             (formatItems items).2])
    ∧ ((formatItems items).1.length < 2000 →
      parseBranch senderID (ParseResult.ok (some items))
        = [Action.logged "Googled: results",
           sendQuickReply senderID (formatItems items).1 (formatItems items).2]) := by
  constructor
  · intro h
    have hlt : ¬(formatItems items).1.length < 2000 := Nat.not_lt.mpr h
    simp [parseBranch, hlt]
  · intro h
    simp [parseBranch, h]

/-- C6 witness: a synthetic 2500-character result set is delivered
truncated to its first 2000 characters. -/
theorem claim_C6_witness :
    2000 ≤ (formatItems [⟨"", String.mk (List.replicate 2495 'a'), "L"⟩]).1.length
    ∧ parseBranch "USER"
        (ParseResult.ok (some [⟨"", String.mk (List.replicate 2495 'a'), "L"⟩]))
      = [Action.logged "Googled: results",
         sendQuickReply "USER"
           ((formatItems [⟨"", String.mk (List.replicate 2495 'a'), "L"⟩]).1.take 2000)
           (formatItems [⟨"", String.mk (List.replicate 2495 'a'), "L"⟩]).2] := by
  have h1 : (formatItems [⟨"", String.mk (List.replicate 2495 'a'), "L"⟩]).1
      = "" ++ toString 1 ++ ". " ++ "" ++ "\n\n" ++ String.mk (List.replicate 2495 'a') :=
    rfl
  have h2 : 2000 ≤ (formatItems [⟨"", String.mk (List.replicate 2495 'a'), "L"⟩]).1.length := by
    rw [h1]
    simp only [String.length_append, String.length_mk, List.length_replicate]
    decide
  exact ⟨h2, (claim_C6 "USER" _).1 h2⟩

/-- C7: a non-echo event whose text starts with http:// or https://
delegates exactly that text to the page fetch client, and a non-echo
quick-reply event delegates exactly its payload; in both cases no search
GET is ever dispatched for the event. -/
theorem claim_C7 (searchUrl : String) (sanitize : String → String)
    (event : MessagingEvent) (search : SearchOutcome) (fetch : FetchOutcome)
    (hecho : event.message.is_echo = false) :
    (∀ messageText, event.message.quick_reply = none →
      event.message.text = some messageText →
      (jsStartsWith messageText "http://" || jsStartsWith messageText "https://") = true →
      (receivedMessage searchUrl sanitize event search fetch).filter isFetchGet
        = [Action.fetchGet messageText]
      ∧ (receivedMessage searchUrl sanitize event search fetch).filter isSearchGet = [])
    ∧ ∀ payload, event.message.quick_reply = some payload →
      (receivedMessage searchUrl sanitize event search fetch).filter isFetchGet
        = [Action.fetchGet payload]
      ∧ (receivedMessage searchUrl sanitize event search fetch).filter isSearchGet = [] := by
  constructor
  · intro messageText hqr htext hurl
    have htrace : receivedMessage searchUrl sanitize event search fetch
        = Action.logged "Received message" :: Action.typingOn event.senderID ::
          httpGet sanitize event.senderID messageText fetch := by
      simp only [receivedMessage, hecho, hqr, htext, hurl]
      simp
    rw [htrace]
    exact ⟨by simp [isFetchGet, httpGet_filter_fetchGet],
      by simp [isSearchGet, httpGet_filter_searchGet]⟩
  · intro payload hqr
    have htrace : receivedMessage searchUrl sanitize event search fetch
        = Action.logged "Received message" :: Action.logged "Quick reply" ::
          httpGet sanitize event.senderID payload fetch := by
      simp only [receivedMessage, hecho, hqr]
      simp
    rw [htrace]
    exact ⟨by simp [isFetchGet, httpGet_filter_fetchGet],
      by simp [isSearchGet, httpGet_filter_searchGet]⟩

/-- C7 witness: a URL text message and a quick-reply payload, each handled
by the page fetch client with the exact string and with no search
dispatch. -/
theorem claim_C7_witness :
    ((receivedMessage "SEARCH/" id ⟨"USER", ⟨false, some "http://example.com", false, none⟩⟩
        (SearchOutcome.response (ParseResult.ok none))
        (FetchOutcome.response 200 "")).filter isFetchGet
      = [Action.fetchGet "http://example.com"]
    ∧ (receivedMessage "SEARCH/" id ⟨"USER", ⟨false, some "http://example.com", false, none⟩⟩
        (SearchOutcome.response (ParseResult.ok none))
        (FetchOutcome.response 200 "")).filter isSearchGet = [])
    ∧ (receivedMessage "SEARCH/" id ⟨"USER", ⟨false, none, false, some "https://example.com"⟩⟩
        (SearchOutcome.response (ParseResult.ok none))
        (FetchOutcome.response 200 "")).filter isFetchGet
      = [Action.fetchGet "https://example.com"]
    ∧ (receivedMessage "SEARCH/" id ⟨"USER", ⟨false, none, false, some "https://example.com"⟩⟩
        (SearchOutcome.response (ParseResult.ok none))
        (FetchOutcome.response 200 "")).filter isSearchGet = [] := by
  refine ⟨(claim_C7 "SEARCH/" id _ _ _ rfl).1 "http://example.com" rfl rfl (by decide),
    (claim_C7 "SEARCH/" id _ _ _ rfl).2 "https://example.com" rfl⟩

/-- C8: every quick-reply message carries exactly 10 buttons, labeled "1"
through "10" in order, button i carrying the i-th link of the collected
link list; when the list has fewer than 10 entries, every button beyond
its length has an undefined (none) payload. -/
theorem claim_C8 (urlArray : List String) :
    (quickReplyButtons urlArray).length = 10
    ∧ (quickReplyButtons urlArray).map Prod.fst
      = ["1", "2", "3", "4", "5", "6", "7", "8", "9", "10"]
    ∧ (∀ i, i < 10 → (quickReplyButtons urlArray).get? i
        = some (toString (i + 1), urlArray.get? i))
    ∧ ∀ i, urlArray.length ≤ i → i < 10 →
        (quickReplyButtons urlArray).get? i = some (toString (i + 1), none) := by
  have hidx : ∀ i, i < 10 → (quickReplyButtons urlArray).get? i
      = some (toString (i + 1), urlArray.get? i) := by
    intro i hi
    interval_cases i <;> rfl
  refine ⟨rfl, rfl, hidx, ?_⟩
  intro i hlen hi
  rw [hidx i hi, List.get?_eq_none.mpr hlen]

/-- C8 witness: with two collected links, button 1 carries the first link
and button 6 an undefined payload. -/
theorem claim_C8_witness :
    (quickReplyButtons ["L1", "L2"]).get? 0 = some ("1", some "L1")
    ∧ (quickReplyButtons ["L1", "L2"]).get? 5 = some ("6", none) := by
  have h := claim_C8 ["L1", "L2"]
  exact ⟨by rw [h.2.2.1 0 (by decide)]; decide, by rw [h.2.2.2 5 (by decide) (by decide)]; decide⟩

/-- C9: for every page fetch whose GET errors or returns a non-200 status,
the handler only logs the failure: no message of any kind (plain text or
quick-reply) is sent to the sender. -/
theorem claim_C9 (sanitize : String → String) (senderID url : String)
    (outcome : FetchOutcome)
    (h : (∃ msg, outcome = FetchOutcome.transportError msg) ∨
      ∃ status body, outcome = FetchOutcome.response status body ∧ status ≠ 200) :
    (httpGet sanitize senderID url outcome).filter isSendToUser = []
    ∧ httpGet sanitize senderID url outcome
      = [Action.logged ("httpGet: Fetching: " ++ url), Action.fetchGet url,
         Action.logged ("Failed calling httpGet from: " ++ url)] := by
  rcases h with ⟨msg, rfl⟩ | ⟨status, body, rfl, hs⟩
  · exact ⟨rfl, rfl⟩
  · have hb : (status == 200) = false := by
      simp only [beq_eq_false_iff_ne, ne_eq]
      exact hs
    constructor <;> simp [httpGet, hb, isSendToUser]

/-- C9 witness: a transport error leads to a log-only trace with no
outbound message. -/
theorem claim_C9_witness :
    (httpGet id "USER" "http://example.com"
        (FetchOutcome.transportError "ECONNREFUSED")).filter isSendToUser = []
    ∧ httpGet id "USER" "http://example.com"
        (FetchOutcome.transportError "ECONNREFUSED")
      = [Action.logged ("httpGet: Fetching: " ++ "http://example.com"),
         Action.fetchGet "http://example.com",
         Action.logged ("Failed calling httpGet from: " ++ "http://example.com")] :=
  claim_C9 id "USER" "http://example.com" _ (Or.inl ⟨_, rfl⟩)

/-- C10: for every non-echo, non-quick-reply text message starting with
http:// or https://, the trace is the inbound log, one typing-on, then the
page-fetch delegation: the typing-on precedes the fetch dispatch and no
typing-off is ever emitted for the event. -/
theorem claim_C10 (searchUrl : String) (sanitize : String → String)
    (event : MessagingEvent) (search : SearchOutcome) (fetch : FetchOutcome)
    (messageText : String)
    (hecho : event.message.is_echo = false)
    (hqr : event.message.quick_reply = none)
    (htext : event.message.text = some messageText)
    (hurl : (jsStartsWith messageText "http://" || jsStartsWith messageText "https://") = true) :
    receivedMessage searchUrl sanitize event search fetch
      = Action.logged "Received message" :: Action.typingOn event.senderID ::
        httpGet sanitize event.senderID messageText fetch
    ∧ (receivedMessage searchUrl sanitize event search fetch).filter isTypingOff = []
    ∧ (receivedMessage searchUrl sanitize event search fetch).filter isTypingOn
      = [Action.typingOn event.senderID] := by
  have htrace : receivedMessage searchUrl sanitize event search fetch
      = Action.logged "Received message" :: Action.typingOn event.senderID ::
        httpGet sanitize event.senderID messageText fetch := by
    simp only [receivedMessage, hecho, hqr, htext, hurl]
    simp
  refine ⟨htrace, ?_, ?_⟩
  · rw [htrace]
    simp [isTypingOff, httpGet_filter_typingOff]
  · rw [htrace]
    simp [isTypingOn, httpGet_filter_typingOn]

/-- C10 witness: the URL text message "https://example.com" produces one
typing-on before the fetch dispatch and no typing-off. -/
theorem claim_C10_witness :
    receivedMessage "SEARCH/" id ⟨"USER", ⟨false, some "https://example.com", false, none⟩⟩
        (SearchOutcome.response (ParseResult.ok none)) (FetchOutcome.response 200 "")
      = Action.logged "Received message" :: Action.typingOn "USER" ::
        httpGet id "USER" "https://example.com" (FetchOutcome.response 200 "")
    ∧ (receivedMessage "SEARCH/" id ⟨"USER", ⟨false, some "https://example.com", false, none⟩⟩
        (SearchOutcome.response (ParseResult.ok none))
        (FetchOutcome.response 200 "")).filter isTypingOff = []
    ∧ (receivedMessage "SEARCH/" id ⟨"USER", ⟨false, some "https://example.com", false, none⟩⟩
        (SearchOutcome.response (ParseResult.ok none))
        (FetchOutcome.response 200 "")).filter isTypingOn = [Action.typingOn "USER"] :=
  claim_C10 "SEARCH/" id _ _ _ "https://example.com" rfl rfl rfl (by decide)

end App
